import Mathlib

/-!
Verification development for the Linux Universal App Installer
(`src/main.py`).  The Python source is shallowly embedded: pure string and
path manipulation becomes Lean functions on `String`; the mutable
`LinuxAppInstaller` object becomes an explicit `AppState` record threaded
through the handler functions; external effects (filesystem probes,
subprocess outcomes, persistence success) become explicit oracle
parameters; exceptions become `Except`/`Option` results.  Machine details
that the claims do not touch (real wall-clock datetimes, the md5/sha256
digests) are modelled by deterministic stand-in functions, documented at
their definition sites.
-/

/-! ## Path helpers (models of `os.path`)

The source calls `os.path.splitext`, `os.path.basename` and
`os.path.join` (posix behaviour).  These stdlib functions are embedded
following CPython's `posixpath`/`genericpath` implementations. -/

/-- Index of the last occurrence of `c` in `cs`, if any
(model of Python `str.rfind` restricted to single characters). -/
def lastIdx (cs : List Char) (c : Char) : Option Nat :=
  match cs.reverse.findIdx? (· == c) with
  | none => none
  | some i => some (cs.length - 1 - i)

/-- Model of `os.path.splitext` (posix): split at the last dot provided it
lies after the last slash and the basename has a non-dot character before
it (so dotfiles such as `.bashrc` have no extension). -/
def splitext (p : String) : String × String :=
  let cs := p.toList
  match lastIdx cs '.' with
  | none => (p, "")
  | some d =>
    let start : Nat := match lastIdx cs '/' with
      | none => 0
      | some s => s + 1
    if start ≤ d ∧ ((cs.drop start).take (d - start)).any (fun c => c ≠ '.') then
      (String.mk (cs.take d), String.mk (cs.drop d))
    else
      (p, "")

/-- Model of `os.path.basename` (posix): everything after the last slash. -/
def basename (p : String) : String :=
  String.mk ((p.toList.reverse.takeWhile (fun c => c ≠ '/')).reverse)

/-- Structurally-recursive model of Python `str.startswith` /
`String.startsWith` (core's version is not kernel-reducible). -/
def strStartsWith (s pre : String) : Bool := pre.toList.isPrefixOf s.toList

/-- Structurally-recursive model of Python `str.endswith`. -/
def strEndsWith (s post : String) : Bool := post.toList.isSuffixOf s.toList

/-- Structurally-recursive model of Python `str.lower` (ASCII, which is
all the source compares). -/
def strToLower (s : String) : String := String.mk (s.toList.map Char.toLower)

/-- Whitespace stripped by Python `str.strip()`. -/
def isWS (c : Char) : Bool := c == ' ' || c == '\t' || c == '\n' || c == '\r'

/-- Structurally-recursive model of Python `str.strip()`. -/
def strTrim (s : String) : String :=
  String.mk (((s.toList.dropWhile isWS).reverse.dropWhile isWS).reverse)

/-- Model of `ext.replace('.', '_')` (single-character pattern). -/
def replaceDots (s : String) : String :=
  String.mk (s.toList.map (fun c => if c == '.' then '_' else c))

/-- Structurally-recursive model of Python `sep.join(parts)`. -/
def strJoin (sep : String) : List String → String
  | [] => ""
  | [a] => a
  | a :: rest => a ++ sep ++ strJoin sep rest

/-- Model of `os.path.join` (posix) for the two-argument calls in the
source. -/
def pathJoin (d n : String) : String :=
  if strStartsWith n "/" then n
  else if d = "" then n
  else if strEndsWith d "/" then d ++ n
  else d ++ "/" ++ n

/-- Model of Python `str.lstrip('.')`: drop every leading dot. -/
def lstripDots (s : String) : String :=
  String.mk (s.toList.dropWhile (fun c => c == '.'))

/-- `get_file_type` — the format-detection function.  The source contains
three textually identical copies (`InstallationTask.get_file_type`,
`BatchInstaller.get_file_type`, `LinuxAppInstaller.get_file_type`,
src/main.py lines 53-60, 135-141, 1172-1178); all three are embedded by
this single definition. -/
def get_file_type (p : String) : String :=
  if strEndsWith p ".tar.gz" then "tar.gz"
  else if strEndsWith p ".tar.xz" then "tar.xz"
  else lstripDots (strToLower (splitext p).2)

/-- The extension whitelist consulted by `LinuxAppInstaller.install_file`
(src/main.py line 1153). -/
def supportedInteractive : List String :=
  ["deb", "appimage", "tar.gz", "tar.xz", "tgz", "snap", "flatpak", "run", "bin"]

/-- The `install_*` methods defined on `BatchInstaller`; `getattr` in
`BatchInstaller.run` (line 295) resolves exactly these names. -/
def batchMethodNames : List String :=
  ["install_deb", "install_appimage", "install_tar_gz", "install_tar_xz",
   "install_tgz", "install_tar", "install_snap", "install_flatpak",
   "install_run", "install_bin", "install_executable"]

/-- Whether `getattr(self, "install_" + ext.replace('.', '_'), None)`
finds a method in `BatchInstaller.run`. -/
def batchHasInstaller (ext : String) : Bool :=
  batchMethodNames.contains ("install_" ++ replaceDots ext)

/-! ## Timestamp codec

`datetime.now()` instants are modelled as natural numbers drawn from an
explicit clock counter; `datetime.isoformat` is modelled as the decimal
representation of that number (any injective encoding models it equally
well, since the claims depend only on the round-trip and on non-`None`
timestamps serializing as non-empty strings), and
`datetime.fromisoformat` as its partial inverse, failing on strings that
are not pure decimal — mirroring the `ValueError` Python raises on
malformed input. -/

def digitChar (d : Nat) : Char := Char.ofNat (48 + d)

def charDigit (c : Char) : Nat := c.toNat - 48

def isDigitCh (c : Char) : Bool := 48 ≤ c.toNat && c.toNat ≤ 57

/-- Model of `datetime.isoformat` on the modelled instants. -/
def isoformat (t : Nat) : String :=
  if t = 0 then "0" else String.mk (((Nat.digits 10 t).map digitChar).reverse)

/-- Model of `datetime.fromisoformat`; `none` models the `ValueError`
raised on a malformed string. -/
def fromisoformat (s : String) : Option Nat :=
  let cs := s.toList
  if !cs.isEmpty && cs.all isDigitCh then
    some (Nat.ofDigits 10 (cs.reverse.map charDigit))
  else none

lemma isDigitCh_digitChar {d : Nat} (h : d < 10) : isDigitCh (digitChar d) = true := by
  interval_cases d <;> decide

lemma charDigit_digitChar {d : Nat} (h : d < 10) : charDigit (digitChar d) = d := by
  interval_cases d <;> decide

lemma fromisoformat_isoformat (t : Nat) : fromisoformat (isoformat t) = some t := by
  by_cases h0 : t = 0
  · subst h0; decide
  · have hne : Nat.digits 10 t ≠ [] := Nat.digits_ne_nil_iff_ne_zero.mpr h0
    have hlt : ∀ d ∈ Nat.digits 10 t, d < 10 := fun d hd =>
      Nat.digits_lt_base (by norm_num) hd
    unfold isoformat fromisoformat
    rw [if_neg h0]
    have htl : (String.mk (((Nat.digits 10 t).map digitChar).reverse)).toList
        = ((Nat.digits 10 t).map digitChar).reverse := rfl
    rw [htl]
    have hempty : (((Nat.digits 10 t).map digitChar).reverse).isEmpty = false := by
      rw [List.isEmpty_eq_false_iff_exists_mem]
      rcases List.exists_mem_of_ne_nil _ hne with ⟨d, hd⟩
      exact ⟨digitChar d, by simp [List.mem_reverse]; exact ⟨d, hd, rfl⟩⟩
    have hall : (((Nat.digits 10 t).map digitChar).reverse).all isDigitCh = true := by
      rw [List.all_eq_true]
      intro c hc
      rw [List.mem_reverse, List.mem_map] at hc
      rcases hc with ⟨d, hd, rfl⟩
      exact isDigitCh_digitChar (hlt d hd)
    simp only [hempty, hall, Bool.not_false, Bool.true_and, if_pos,
      List.reverse_reverse, List.map_map]
    have : (Nat.digits 10 t).map (charDigit ∘ digitChar) = Nat.digits 10 t := by
      rw [show Nat.digits 10 t = (Nat.digits 10 t).map id from (List.map_id _).symm]
      rw [List.map_map]
      apply List.map_congr_left
      intro d hd
      exact charDigit_digitChar (hlt d hd)
    rw [this, Nat.ofDigits_digits]

/-! ## Task model (`InstallationTask`, src/main.py lines 216-271)

Python class instances become a record of the instance fields.  `progress`
and `file_size` are Python ints, embedded as `Int`; timestamps are
`Option Nat` over the modelled clock. -/

structure InstallationTask where
  file_path : String
  task_id : String
  status : String
  progress : Int
  message : String
  start_time : Option Nat
  end_time : Option Nat
  file_hash : String
  file_size : Int
deriving Repr, DecidableEq

/-- Placeholder task used for out-of-range heap reads (never reached under
the theorems' validity hypotheses). -/
def noTask : InstallationTask :=
  { file_path := "", task_id := "", status := "", progress := 0,
    message := "", start_time := none, end_time := none,
    file_hash := "", file_size := 0 }

/-- Deterministic stand-in for `hashlib.md5(path.encode()).hexdigest()[:8]`
(the digest function itself is Python stdlib, not part of src/; the claims
depend only on it being a deterministic function of the path). -/
def md5_8 (s : String) : String := "#" ++ s

/-- JSON values as they appear in `history.json`: the wire image of a task
field is a string, an integer, or `null`. -/
inductive JValue where
  | null : JValue
  | str (s : String) : JValue
  | int (n : Int) : JValue
deriving Repr, DecidableEq

/-- A JSON object, as written by `json.dump` for one task. -/
abbrev WireDict := List (String × JValue)

/-- `InstallationTask.to_dict` (src/main.py lines 246-258): note that a
`None` timestamp is written as an explicit `null` value under a *present*
key. -/
def InstallationTask.to_dict (t : InstallationTask) : WireDict :=
  [("file_path", .str t.file_path),
   ("task_id", .str t.task_id),
   ("status", .str t.status),
   ("progress", .int t.progress),
   ("message", .str t.message),
   ("start_time", match t.start_time with | none => .null | some ts => .str (isoformat ts)),
   ("end_time", match t.end_time with | none => .null | some ts => .str (isoformat ts)),
   ("file_hash", .str t.file_hash),
   ("file_size", .int t.file_size)]

/-- Reading an optional-timestamp field in `from_dict`: the code runs
`datetime.fromisoformat(data[k]) if data.get(k) else None`, so `null`,
an absent key and the falsy empty string all give `None`, and a malformed
string raises (outer `none`).  Wire values of unexpected JSON type are
outside the modelled envelope and treated as a parse failure. -/
def parseTimeField : Option JValue → Option (Option Nat)
  | some (.str s) => if s = "" then some none else (fromisoformat s).map some
  | some .null => some none
  | none => some none
  | some (.int _) => none

/-- `InstallationTask.from_dict` (src/main.py lines 260-271).  `none`
models the exception propagating out of `from_dict` (missing
`file_path` key or malformed timestamp; unexpected JSON types are also
mapped to failure, see `parseTimeField`).  The constructor's hash/stat
reads never raise and are overwritten by the explicit field assignments,
so they do not appear. -/
def InstallationTask.from_dict (d : WireDict) : Option InstallationTask := do
  let fp ← match d.lookup "file_path" with
    | some (.str s) => some s
    | _ => none
  let tid ← match d.lookup "task_id" with
    | some (.str s) => some (if s = "" then md5_8 fp else s)
    | some .null => some (md5_8 fp)
    | none => some (md5_8 fp)
    | some (.int _) => none
  let status ← match d.lookup "status" with
    | some (.str s) => some s
    | none => some "queued"
    | _ => none
  let progress ← match d.lookup "progress" with
    | some (.int n) => some n
    | none => some (0 : Int)
    | _ => none
  let message ← match d.lookup "message" with
    | some (.str s) => some s
    | none => some ""
    | _ => none
  let st ← parseTimeField (d.lookup "start_time")
  let et ← parseTimeField (d.lookup "end_time")
  let fh ← match d.lookup "file_hash" with
    | some (.str s) => some s
    | none => some "unknown"
    | _ => none
  let fs ← match d.lookup "file_size" with
    | some (.int n) => some n
    | none => some (0 : Int)
    | _ => none
  some { file_path := fp, task_id := tid, status := status, progress := progress,
         message := message, start_time := st, end_time := et,
         file_hash := fh, file_size := fs }

lemma parseTimeField_roundtrip (o : Option Nat) :
    parseTimeField (some (match o with | none => JValue.null | some ts => .str (isoformat ts)))
      = some o := by
  cases o with
  | none => rfl
  | some ts =>
    simp only [parseTimeField]
    have h1 : isoformat ts ≠ "" := by
      intro h
      have := fromisoformat_isoformat ts
      rw [h] at this
      simp [fromisoformat] at this
    rw [if_neg h1, fromisoformat_isoformat]
    rfl

lemma lookup_to_dict_file_path (t : InstallationTask) :
    t.to_dict.lookup "file_path" = some (.str t.file_path) := rfl

lemma lookup_to_dict_task_id (t : InstallationTask) :
    t.to_dict.lookup "task_id" = some (.str t.task_id) := rfl

lemma lookup_to_dict_status (t : InstallationTask) :
    t.to_dict.lookup "status" = some (.str t.status) := rfl

lemma lookup_to_dict_progress (t : InstallationTask) :
    t.to_dict.lookup "progress" = some (.int t.progress) := rfl

lemma lookup_to_dict_message (t : InstallationTask) :
    t.to_dict.lookup "message" = some (.str t.message) := rfl

lemma lookup_to_dict_start_time (t : InstallationTask) :
    t.to_dict.lookup "start_time"
      = some (match t.start_time with | none => JValue.null | some ts => .str (isoformat ts)) := rfl

lemma lookup_to_dict_end_time (t : InstallationTask) :
    t.to_dict.lookup "end_time"
      = some (match t.end_time with | none => JValue.null | some ts => .str (isoformat ts)) := rfl

lemma lookup_to_dict_file_hash (t : InstallationTask) :
    t.to_dict.lookup "file_hash" = some (.str t.file_hash) := rfl

lemma lookup_to_dict_file_size (t : InstallationTask) :
    t.to_dict.lookup "file_size" = some (.int t.file_size) := rfl

/-- Deserializing the serialized form reproduces every field, provided the
task id is non-empty (an empty id is falsy in Python, so the constructor
would silently replace it; every task the program creates has an 8-hex-char
id). -/
lemma from_dict_to_dict (t : InstallationTask) (h : t.task_id ≠ "") :
    InstallationTask.from_dict t.to_dict = some t := by
  simp only [InstallationTask.from_dict, lookup_to_dict_file_path,
    lookup_to_dict_task_id, lookup_to_dict_status, lookup_to_dict_progress,
    lookup_to_dict_message, lookup_to_dict_start_time, lookup_to_dict_end_time,
    lookup_to_dict_file_hash, lookup_to_dict_file_size, parseTimeField_roundtrip,
    Option.bind_some, if_neg h, Option.some_bind]
  rfl

/-! ## Command Executor (`run_command`, src/main.py lines 392-395 and 1602-1612)

`subprocess.run(cmd, capture_output=True, text=True, timeout=300)` is
modelled by an oracle value describing the one child process run: either
it finished with an exit code and captured streams, or it exceeded the
300-second bound (`subprocess.TimeoutExpired`). -/

inductive CmdOutcome where
  | finished (returncode : Int) (stdout stderr : String) : CmdOutcome
  | timedOut : CmdOutcome
deriving Repr, DecidableEq

/-- The fixed timeout passed to every `subprocess.run` call (seconds). -/
def commandTimeout : Nat := 300

/-- Python truthiness fallback `a or b` on strings. -/
def pyOrStr (a b : String) : String := if a = "" then b else a

/-- The single quote character, used by Python `repr` of strings. -/
def sglQuote : String := String.mk [Char.ofNat 39]

/-- Python `repr` of a list of strings, as embedded in
`str(subprocess.TimeoutExpired)` (e.g. `['pkexec', 'dpkg']`). -/
def pyReprList (cmd : List String) : String :=
  "[" ++ strJoin ", " (cmd.map (fun a => sglQuote ++ a ++ sglQuote)) ++ "]"

/-- `LinuxAppInstaller.run_command` (lines 1602-1612): non-zero exit
raises `stderr.strip() or stdout.strip()`; `TimeoutExpired` is caught and
re-raised as `"Command timed out: " + ' '.join(cmd)`. -/
def run_command (cmd : List String) (o : CmdOutcome) : Except String Unit :=
  match o with
  | .finished rc out err =>
      if rc ≠ 0 then .error (pyOrStr (strTrim err) (strTrim out)) else .ok ()
  | .timedOut => .error ("Command timed out: " ++ strJoin " " cmd)

/-- `BatchInstaller.run_command` (lines 392-395): no `TimeoutExpired`
handler there, so the exception escapes with Python's own message
`Command '[...]' timed out after 300 seconds`, which the batch loop's
generic handler later stringifies. -/
def BatchInstaller.run_command (cmd : List String) (o : CmdOutcome) : Except String Unit :=
  match o with
  | .finished rc out err =>
      if rc ≠ 0 then .error (pyOrStr (strTrim err) (strTrim out)) else .ok ()
  | .timedOut =>
      .error ("Command " ++ pyReprList cmd ++ " timed out after "
        ++ Nat.repr commandTimeout ++ " seconds")

/-- One `run_command` call consumes exactly one child-process run from the
oracle trace: the executor performs no retries. -/
def run_command_trace (cmd : List String) :
    List CmdOutcome → Except String Unit × List CmdOutcome
  | [] => (.ok (), [])
  | o :: rest => (run_command cmd o, rest)

/-! ## Appimage destination resolution
(`install_appimage`, src/main.py lines 334-346 and 1187-1209)

The filesystem is modelled as the list of existing file names; the
unbounded `while os.path.exists(...)` loop is modelled with explicit
fuel (the real loop terminates because the directory is finite; the
theorems hypothesize a free slot within the supplied fuel). -/

/-- The name `f"{base}_{counter}{ext}"` probed by the collision loop. -/
def slotName (base ext : String) (c : Nat) : String :=
  base ++ "_" ++ Nat.repr c ++ ext

/-- The `while os.path.exists(f"{base}_{counter}{ext}"): counter += 1`
loop: first counter from `start` whose slot name is not on disk. -/
def findFree (fs : List String) (base ext : String) : Nat → Nat → Nat
  | start, 0 => start
  | start, fuel + 1 =>
      if slotName base ext start ∈ fs then findFree fs base ext (start + 1) fuel
      else start

/-- The user-scoped install root `os.path.expanduser("~/Applications")`;
the home directory is environment configuration, fixed in the model. -/
def app_dir : String := "/home/user/Applications"

/-- Destination chosen by `install_appimage` (lines 1191-1197 = 337-343):
the plain basename if free, otherwise the first free `_1, _2, ...`
suffixed name starting from counter 1. -/
def appimageDest (fs : List String) (fuel : Nat) (file_path : String) : String :=
  let dest := pathJoin app_dir (basename file_path)
  if dest ∈ fs then
    let be := splitext dest
    slotName be.1 be.2 (findFree fs be.1 be.2 1 fuel)
  else dest

lemma findFree_spec (fs : List String) (base ext : String) :
    ∀ fuel start, (∃ k, k < fuel ∧ slotName base ext (start + k) ∉ fs) →
      slotName base ext (findFree fs base ext start fuel) ∉ fs ∧
      start ≤ findFree fs base ext start fuel ∧
      ∀ j, start ≤ j → j < findFree fs base ext start fuel → slotName base ext j ∈ fs := by
  intro fuel
  induction fuel with
  | zero => intro start h; rcases h with ⟨k, hk, _⟩; omega
  | succ n ih =>
    intro start h
    rcases h with ⟨k, hk, hfree⟩
    by_cases hocc : slotName base ext start ∈ fs
    · have hk0 : k ≠ 0 := by
        intro h0; subst h0; simp at hfree; exact hfree hocc
      have hnext : ∃ k, k < n ∧ slotName base ext (start + 1 + k) ∉ fs := by
        refine ⟨k - 1, by omega, ?_⟩
        have : start + 1 + (k - 1) = start + k := by omega
        rw [this]; exact hfree
      rcases ih (start + 1) hnext with ⟨h1, h2, h3⟩
      refine ⟨?_, ?_, ?_⟩
      · simpa [findFree, hocc] using h1
      · simp only [findFree, if_pos hocc]; omega
      · intro j hj1 hj2
        simp only [findFree, if_pos hocc] at hj2
        rcases Nat.eq_or_lt_of_le hj1 with rfl | hlt
        · exact hocc
        · exact h3 j hlt hj2
    · refine ⟨?_, ?_, ?_⟩
      · simp only [findFree, if_neg hocc]; exact hocc
      · simp [findFree, hocc]
      · intro j hj1 hj2
        simp only [findFree, if_neg hocc] at hj2
        omega

/-! ## Batch Scheduler (`BatchInstaller`, src/main.py lines 273-317)

Python object identity matters here: `start_batch_installation` hands
`BatchInstaller` a *shallow* copy of the queue list, so the thread and
the window share the `InstallationTask` objects.  The object graph is
made explicit: a heap `List InstallationTask` addressed by indices
(references), with the queue and the batch holding lists of references.

The result of each `install_func(task.file_path)` call — everything that
happens inside the install procedures, subprocesses included — is
supplied by an oracle `env : String → Except String String` mapping the
file path to the returned result string or the raised exception message.

`datetime.now()` is modelled by an explicit counter incremented at each
call, so timestamps are distinct and ordered. -/

/-- Signals emitted by `BatchInstaller` (lines 275-277). -/
inductive BEvent where
  | progress_updated (task_id : String) (pct : Int) (message : String) : BEvent
  | task_completed (task_id : String) (success : Bool) (message : String) : BEvent
  | batch_finished : BEvent
deriving Repr, DecidableEq

/-- The terminal task value produced by one iteration of the `run` loop
(lines 285-315) for a task dequeued at clock value `c`: status
`installing` with start time, then dispatch, then terminal status and
end time `c + 1`. -/
def taskResult (env : String → Except String String)
    (t : InstallationTask) (c : Nat) : InstallationTask :=
  let t1 := { t with status := "installing", start_time := some c }
  let ext := get_file_type t.file_path
  let t2 :=
    if batchHasInstaller ext then
      match env t.file_path with
      | .ok res => { t1 with status := "completed", message := res }
      | .error msg => { t1 with status := "failed", message := msg }
    else
      { t1 with status := "failed", message := "Unsupported file type: " ++ ext }
  { t2 with end_time := some (c + 1) }

/-- The signals emitted while processing one task (depend only on the
task's pre-state and the oracle, not on the clock). -/
def taskEvents (env : String → Except String String)
    (t : InstallationTask) : List BEvent :=
  let start := BEvent.progress_updated t.task_id 10
    ("Starting installation of " ++ basename t.file_path)
  let ext := get_file_type t.file_path
  if batchHasInstaller ext then
    match env t.file_path with
    | .ok res =>
        [start, .progress_updated t.task_id 50 "Installing...",
         .progress_updated t.task_id 100 res, .task_completed t.task_id true res]
    | .error msg =>
        [start, .progress_updated t.task_id 50 "Installing...",
         .progress_updated t.task_id 100 ("Failed: " ++ msg),
         .task_completed t.task_id false msg]
  else
    let msg := "Unsupported file type: " ++ ext
    [start, .progress_updated t.task_id 100 ("Failed: " ++ msg),
     .task_completed t.task_id false msg]

/-- One iteration of the `run` loop operating on the shared heap. -/
def batchStep (env : String → Except String String)
    (heap : List InstallationTask) (clock : Nat) (r : Nat) :
    List InstallationTask × Nat × List BEvent :=
  (heap.set r (taskResult env (heap.getD r noTask) clock), clock + 2,
   taskEvents env (heap.getD r noTask))

/-- `BatchInstaller.run` (lines 284-317): drain the private reference
list front-first, then emit `batch_finished`.  `self.running` is `True`
at construction and nothing in src/ ever clears it, so the loop always
drains the whole list. -/
def BatchInstaller.run (env : String → Except String String) :
    List Nat → List InstallationTask → Nat →
    List InstallationTask × Nat × List BEvent
  | [], heap, clock => (heap, clock, [.batch_finished])
  | r :: rs, heap, clock =>
      let s1 := batchStep env heap clock r
      let s2 := BatchInstaller.run env rs s1.1 s1.2.1
      (s2.1, s2.2.1, s1.2.2 ++ s2.2.2)

/-! ## History Ledger and window state (`LinuxAppInstaller`)

`history.json` is modelled by a `StoreState`: missing, unparsable, or a
list of wire dictionaries.  Persistence failures (`IOError` on write)
are supplied as an oracle boolean. -/

inductive StoreState where
  | missing : StoreState
  | corrupt : StoreState
  | data (entries : List WireDict) : StoreState
deriving Repr, DecidableEq

/-- Python `history[-n:]`. -/
def lastN (n : Nat) (l : List InstallationTask) : List InstallationTask :=
  l.drop (l.length - n)

/-- Parse every persisted entry; any entry raising aborts the whole list
comprehension in `load_history` (`none`). -/
def parseAll : List WireDict → Option (List InstallationTask)
  | [] => some []
  | d :: ds =>
      match InstallationTask.from_dict d, parseAll ds with
      | some t, some ts => some (t :: ts)
      | _, _ => none

/-- The mutable `LinuxAppInstaller` window state touched by the claims:
the object heap, the queue and history lists, the single-flight flag, the
worker/batch handles and the persisted store, plus the modelled clock. -/
structure AppState where
  heap : List InstallationTask
  installation_queue : List Nat
  installation_history : List InstallationTask
  store : StoreState
  installing : Bool
  workerRunning : Bool
  batch : Option (List Nat)
  batchRunning : Bool
  clock : Nat
deriving Repr, DecidableEq

/-- `LinuxAppInstaller.load_history` (lines 1011-1023): missing file,
JSON parse failure or a raising `from_dict` all fall to the `except`
branch, which installs the empty history — the caller never sees an
exception. -/
def load_history (s : AppState) : AppState :=
  { s with installation_history :=
      match s.store with
      | .missing => []
      | .corrupt => []
      | .data ds => (parseAll ds).getD [] }

/-- `LinuxAppInstaller.save_history_entry` (lines 1034-1041): append to
the in-memory history unconditionally, then try to rewrite the store with
the most recent 1000 entries; a write failure (`persistOk = false`) is
logged and swallowed. -/
def save_history_entry (s : AppState) (task : InstallationTask) (persistOk : Bool) : AppState :=
  let hist := s.installation_history ++ [task]
  { s with installation_history := hist,
           store := if persistOk then .data ((lastN 1000 hist).map (·.to_dict)) else s.store }

/-- `next((t for t in self.installation_queue if t.task_id == task_id), None)`. -/
def findTask (s : AppState) (task_id : String) : Option Nat :=
  s.installation_queue.find? (fun r => (s.heap.getD r noTask).task_id == task_id)

/-- `LinuxAppInstaller.on_batch_task_completed` (lines 987-995): look the
task up in the *user-visible* queue by id; if found, overwrite its status
and message, append it to the ledger, then `load_history()` — which
replaces the in-memory history with whatever the store now holds.  A task
no longer in the queue is silently dropped. -/
def on_batch_task_completed (s : AppState) (task_id : String) (success : Bool)
    (message : String) (persistOk : Bool) : AppState :=
  match findTask s task_id with
  | none => s
  | some r =>
      let t := s.heap.getD r noTask
      let t1 := { t with status := if success then "completed" else "failed",
                         message := message }
      let s1 := { s with heap := s.heap.set r t1 }
      load_history (save_history_entry s1 t1 persistOk)

/-- UI effects visible to the user in the interactive path. -/
inductive UIEvent where
  | errorDialog (msg : String) : UIEvent
  | infoDialog (msg : String) : UIEvent
  | statusText (msg : String) : UIEvent
  | workerStarted (path : String) : UIEvent
deriving Repr, DecidableEq

/-- `LinuxAppInstaller.on_install_finished` (lines 1614-1624): clear the
single-flight flag, restore the drop zone and button, show the success
dialog.  Note: it does not touch `installation_history` or the store. -/
def on_install_finished (s : AppState) (message : String) : AppState × List UIEvent :=
  ({ s with installing := false, workerRunning := false }, [.infoDialog message])

/-- `LinuxAppInstaller.on_install_error` (lines 1626-1637): same state
restoration, error dialog; the ledger is not touched either. -/
def on_install_error (s : AppState) (error_msg : String) : AppState × List UIEvent :=
  ({ s with installing := false, workerRunning := false }, [.errorDialog error_msg])

/-- Filesystem facts about the dropped path probed by `install_file`. -/
structure FileInfo where
  pathExists : Bool
  readable : Bool
  size : Nat
deriving Repr, DecidableEq

/-- `LinuxAppInstaller.install_file` (lines 1126-1170): busy checks, then
existence/readability/non-emptiness validation (each failure shows an
error dialog and returns), then format detection against the whitelist,
and only then the state flip and worker start. -/
def install_file (s : AppState) (path : String) (fi : FileInfo) : AppState × List UIEvent :=
  if s.installing then
    (s, [.statusText "Installation already in progress. Please wait."])
  else if s.workerRunning then
    (s, [.statusText "Installation already in progress. Please wait."])
  else if !fi.pathExists then
    (s, [.errorDialog ("File does not exist: " ++ path)])
  else if !fi.readable then
    (s, [.errorDialog ("File is not readable: " ++ path)])
  else if fi.size = 0 then
    (s, [.errorDialog ("File is empty: " ++ path)])
  else
    let ext := get_file_type path
    if ext ∉ supportedInteractive then
      (s, [.errorDialog ("Unsupported file type: " ++ ext)])
    else
      ({ s with installing := true, workerRunning := true },
       [.statusText ("Installing " ++ basename path ++ "..."), .workerStarted path])

/-- Outcome of `start_batch_installation` (lines 964-981). -/
inductive StartBatchResult where
  | noFiles : StartBatchResult
  | alreadyRunning : StartBatchResult
  | raisedAttributeError : StartBatchResult
deriving Repr, DecidableEq

/-- `LinuxAppInstaller.start_batch_installation` (lines 964-981): after
the emptiness and already-running guards, line 973 constructs
`BatchInstaller(self.installation_queue.copy())` — a shallow copy, the
same task references — and assigns it; line 974 then calls
`self.current_batch_installer.set_installer(self)`, but `BatchInstaller`
defines no `set_installer` method, so an `AttributeError` escapes: the
signal connections and `start()` on lines 975-981 never execute. -/
def start_batch_installation (s : AppState) : AppState × StartBatchResult :=
  if s.installation_queue = [] then (s, .noFiles)
  else if s.batchRunning then (s, .alreadyRunning)
  else ({ s with batch := some s.installation_queue }, .raisedAttributeError)

/-! ## Desktop Integration Subsystem (src/main.py lines 1282-1600)

Each step's internal failures (filesystem writes, icon mount, database
update commands) are supplied by an oracle `IntegrationEnv`; each step
catches its own exceptions (`except ... logging.warning`) as in the
source, so the step functions are total and report at most a warning.
The events record which steps were attempted and what they produced. -/

inductive IntStep where
  | desktopEntry | iconExtract | appDirs | uninstallEntry | fileAssoc
deriving Repr, DecidableEq

inductive IntEvent where
  | attempted (st : IntStep) : IntEvent
  | warned (st : IntStep) (msg : String) : IntEvent
  | wroteEntry (path icon : String) : IntEvent
  | wroteFile (path : String) : IntEvent
deriving Repr, DecidableEq

/-- Which integration effects fail in a given run. -/
structure IntegrationEnv where
  iconOk : Bool
  entryFail : Bool
  dirsFail : Bool
  uninstallFail : Bool
  assocFail : Bool
  postUnexpectedFail : Bool
deriving Repr, DecidableEq

/-- The modelled user home (environment configuration). -/
def home : String := "/home/user"

/-- `extract_appimage_icon` (lines 1322-1356): tries to mount the
AppImage and copy a bundled icon; every failure path is caught inside the
function and surfaces as `None`. -/
def extract_appimage_icon (env : IntegrationEnv) (app_name : String) :
    Option String × List IntEvent :=
  if env.iconOk then
    let dest := home ++ "/.local/share/icons/" ++ app_name ++ ".png"
    (some dest, [.attempted .iconExtract, .wroteFile dest])
  else
    (none, [.attempted .iconExtract])

/-- `create_appimage_desktop_entry` (lines 1282-1320): icon extraction
(with generic-icon fallback), then the menu entry and the desktop
shortcut; the whole body is wrapped in `try/except logging.warning`. -/
def create_appimage_desktop_entry (env : IntegrationEnv) (appimage_path : String) :
    List IntEvent :=
  let app_name := (splitext (basename appimage_path)).1
  let iconEv := extract_appimage_icon env app_name
  let icon := (iconEv.1).getD "application-x-executable"
  let desktop_file := home ++ "/.local/share/applications/" ++ app_name ++ ".desktop"
  let shortcut := home ++ "/Desktop/" ++ app_name ++ ".desktop"
  .attempted .desktopEntry ::
    iconEv.2 ++
    (if env.entryFail then
      [.warned .desktopEntry ("Failed to create desktop entry for " ++ appimage_path)]
    else
      [.wroteEntry desktop_file icon, .wroteEntry shortcut icon])

/-- `setup_application_directories` (lines 1453-1475): creates the
data/config/cache directories, returning `{}` on failure. -/
def setup_application_directories (env : IntegrationEnv) (app_name : String) :
    List (String × String) × List IntEvent :=
  if env.dirsFail then
    ([], [.attempted .appDirs,
          .warned .appDirs ("Failed to create application directories for " ++ app_name)])
  else
    ([("data", home ++ "/.local/share/" ++ app_name),
      ("config", home ++ "/.config/" ++ app_name),
      ("cache", home ++ "/.cache/" ++ app_name)],
     [.attempted .appDirs])

/-- `create_uninstall_entry` (lines 1477-1505). -/
def create_uninstall_entry (env : IntegrationEnv) (app_name _install_path : String) :
    List IntEvent :=
  .attempted .uninstallEntry ::
    (if env.uninstallFail then
      [.warned .uninstallEntry ("Failed to create uninstall entry for " ++ app_name)]
    else
      [.wroteFile (home ++ "/.local/share/applications/" ++ app_name ++ "-uninstall.desktop")])

/-- `setup_file_associations` (lines 1507-1558): early-returns on an
empty extension list, otherwise registers each extension, all inside one
`try/except logging.warning`. -/
def setup_file_associations (env : IntegrationEnv) (app_name : String)
    (file_extensions : List String) : List IntEvent :=
  if file_extensions = [] then []
  else
    .attempted .fileAssoc ::
      (if env.assocFail then
        [.warned .fileAssoc ("Failed to setup file associations for " ++ app_name)]
      else
        file_extensions.map (fun e =>
          .wroteFile (home ++ "/.local/share/mime/packages/" ++ app_name ++ "-"
            ++ lstripDots e ++ ".xml")))

/-- The per-format extension table in `post_install_setup` (lines 1570-1576). -/
def file_associations : List (String × List String) :=
  [("appimage", [".appimage"]), ("tar.gz", [".tar.gz", ".tgz"]),
   ("tar.xz", [".tar.xz"]), ("run", [".run"]), ("bin", [".bin"])]

/-- The success report assembled at lines 1582-1593. -/
def post_completion_msg (app_name install_path : String)
    (dirs : List (String × String)) : String :=
  "\nApplication " ++ sglQuote ++ app_name ++ sglQuote
    ++ " has been successfully installed!\n\nInstallation Details:\n Application Location: "
    ++ install_path
    ++ "\n Desktop Shortcut: ~/Desktop/" ++ app_name ++ ".desktop"
    ++ "\n Menu Entry: ~/.local/share/applications/" ++ app_name ++ ".desktop"
    ++ "\n Data Directory: " ++ ((dirs.lookup "data").getD "N/A")
    ++ "\n Config Directory: " ++ ((dirs.lookup "config").getD "N/A")
    ++ "\n\nThe application is now ready to use. You can find it in your applications menu or on your desktop.\n"

/-- The degraded report returned by the `except` branch (line 1600). -/
def post_degraded_msg (app_name : String) : String :=
  "Application " ++ sglQuote ++ app_name ++ sglQuote
    ++ " installed successfully, but some integration features may not be available."

/-- `post_install_setup` (lines 1560-1600): directories, uninstall entry,
file associations — each swallowing its own failures — then the report.
`postUnexpectedFail` models an exception raised inside `post_install_setup`
itself but outside the sub-steps (only the report assembly remains there),
which its `except` turns into the degraded message. -/
def post_install_setup (env : IntegrationEnv)
    (app_name install_path file_type : String) : String × List IntEvent :=
  let dirsEv := setup_application_directories env app_name
  let e2 := create_uninstall_entry env app_name install_path
  let e3 := match file_associations.lookup file_type with
    | some exts => setup_file_associations env app_name exts
    | none => []
  let msg := if env.postUnexpectedFail then post_degraded_msg app_name
             else post_completion_msg app_name install_path dirsEv.1
  (msg, dirsEv.2 ++ e2 ++ e3)

/-- `LinuxAppInstaller.install_appimage` (lines 1187-1209): resolve the
destination, move (`move` oracle: `.error` is the raised filesystem
exception), then the best-effort desktop integration, then the fixed
success string.  The `completion_msg` from `post_install_setup` is
computed and discarded by the source; the events record the integration
activity. -/
def install_appimage (fs : List String) (fuel : Nat) (env : IntegrationEnv)
    (move : Except String Unit) (file_path : String) :
    Except String (String × List IntEvent) :=
  let dest := appimageDest fs fuel file_path
  match move with
  | .error e => .error ("Failed to install AppImage: " ++ e)
  | .ok () =>
      let e1 := create_appimage_desktop_entry env dest
      let post := post_install_setup env ((splitext (basename dest)).1) dest "appimage"
      .ok ("AppImage installed to " ++ dest ++ " with desktop integration", e1 ++ post.2)

/-- `BatchInstaller.install_appimage` (lines 334-346): same destination
resolution, no desktop integration, no local `try` — a move failure
propagates raw to the batch loop's handler. -/
def BatchInstaller.install_appimage (fs : List String) (fuel : Nat)
    (move : Except String Unit) (file_path : String) : Except String String :=
  let dest := appimageDest fs fuel file_path
  match move with
  | .error e => .error e
  | .ok () => .ok ("AppImage installed to " ++ dest)

/-! ## Shared concrete fixtures for witnesses and counterexamples -/

/-- A concrete task as the program would create it. -/
def sampleTask (p : String) : InstallationTask :=
  { file_path := p, task_id := "abc12345", status := "queued", progress := 0,
    message := "", start_time := none, end_time := none,
    file_hash := "unknown", file_size := 10 }

/-- A concrete idle window state holding one queued task. -/
def s0 : AppState :=
  { heap := [sampleTask "/tmp/app.deb"], installation_queue := [0],
    installation_history := [], store := .missing, installing := false,
    workerRunning := false, batch := none, batchRunning := false, clock := 0 }

/-- The error message produced by the first failing validation check in
`install_file` (lines 1136-1147). -/
def validationMsg (path : String) (fi : FileInfo) : String :=
  if !fi.pathExists then "File does not exist: " ++ path
  else if !fi.readable then "File is not readable: " ++ path
  else "File is empty: " ++ path

/-! ## C4 — format detection -/

/-- C4: format detection is a total, deterministic function of the path
(a pure Lean function by construction; conjunct 1 states determinism
explicitly); a `.tar.gz`/`.tar.xz` two-segment suffix takes precedence
(conjuncts 2-3); every other path receives its `splitext` suffix
lowercased with the leading dot stripped (conjunct 4); and a tag outside
the supported set is rejected as unsupported both by the interactive
dispatcher (conjunct 5) and by the batch dispatcher (conjunct 6). -/
theorem C4_format_detection :
    (∀ p₁ p₂ : String, p₁ = p₂ → get_file_type p₁ = get_file_type p₂) ∧
    (∀ p : String, strEndsWith p ".tar.gz" = true → get_file_type p = "tar.gz") ∧
    (∀ p : String, strEndsWith p ".tar.gz" = false → strEndsWith p ".tar.xz" = true →
      get_file_type p = "tar.xz") ∧
    (∀ p : String, strEndsWith p ".tar.gz" = false → strEndsWith p ".tar.xz" = false →
      get_file_type p = lstripDots (strToLower (splitext p).2)) ∧
    (∀ (s : AppState) (path : String) (fi : FileInfo),
      s.installing = false → s.workerRunning = false →
      fi.pathExists = true → fi.readable = true → fi.size ≠ 0 →
      get_file_type path ∉ supportedInteractive →
      install_file s path fi
        = (s, [.errorDialog ("Unsupported file type: " ++ get_file_type path)])) ∧
    (∀ (env : String → Except String String) (t : InstallationTask) (c : Nat),
      batchHasInstaller (get_file_type t.file_path) = false →
      (taskResult env t c).status = "failed" ∧
      (taskResult env t c).message = "Unsupported file type: " ++ get_file_type t.file_path) := by
  refine ⟨fun p₁ p₂ h => by rw [h], ?_, ?_, ?_, ?_, ?_⟩
  · intro p h; simp [get_file_type, h]
  · intro p h1 h2; simp [get_file_type, h1, h2]
  · intro p h1 h2; simp [get_file_type, h1, h2]
  · intro s path fi h1 h2 h3 h4 h5 h6
    simp [install_file, h1, h2, h3, h4, h5, h6]
  · intro env t c h
    constructor <;> simp [taskResult, h]

/-- C4 witness: the theorem applied at concrete paths and a concrete
idle state with a readable, non-empty `.xyz` file. -/
theorem C4_format_detection_witness :
    get_file_type "/tmp/a.tar.gz" = "tar.gz" ∧
    get_file_type "/tmp/a.tar.xz" = "tar.xz" ∧
    get_file_type "/tmp/a.DEB" = lstripDots (strToLower (splitext "/tmp/a.DEB").2) ∧
    install_file s0 "/tmp/a.xyz" ⟨true, true, 5⟩
      = (s0, [.errorDialog ("Unsupported file type: " ++ get_file_type "/tmp/a.xyz")]) ∧
    (taskResult (fun _ => .ok "r") (sampleTask "/tmp/a.xyz") 0).status = "failed" := by
  obtain ⟨-, h2, h3, h4, h5, h6⟩ := C4_format_detection
  refine ⟨h2 _ (by decide), h3 _ (by decide) (by decide), h4 _ (by decide) (by decide),
    h5 s0 "/tmp/a.xyz" ⟨true, true, 5⟩ rfl rfl rfl rfl (by decide) (by decide), ?_⟩
  exact (h6 (fun _ => .ok "r") (sampleTask "/tmp/a.xyz") 0 (by decide)).1

/-! ## C5 — command executor -/

/-- C5: `run_command` consumes exactly one child-process run from the
trace (no retries, conjunct 1); it fails exactly on non-zero exit or
timeout (conjuncts 2-3); on non-zero exit the message is the stripped
stderr, else the stripped stdout, else empty (conjunct 2, via `pyOrStr`);
on timeout the message contains the invoked command, in both the
interactive wrapper and the batch variant, whose bound is the fixed 300
seconds (conjuncts 4-6); and a batch task whose install raises a timeout
message transitions to `failed` carrying that message (conjunct 7). -/
theorem C5_run_command_contract :
    (∀ (cmd : List String) (o : CmdOutcome) (rest : List CmdOutcome),
      run_command_trace cmd (o :: rest) = (run_command cmd o, rest)) ∧
    (∀ (cmd : List String) (rc : Int) (out err : String),
      run_command cmd (.finished rc out err)
        = if rc ≠ 0 then .error (pyOrStr (strTrim err) (strTrim out)) else .ok ()) ∧
    (∀ (cmd : List String) (o : CmdOutcome),
      (∃ e, run_command cmd o = .error e) ↔
        (o = .timedOut ∨ ∃ rc out err, o = .finished rc out err ∧ rc ≠ 0)) ∧
    (∀ cmd : List String, run_command cmd .timedOut
        = .error ("Command timed out: " ++ strJoin " " cmd)) ∧
    (∀ cmd : List String, BatchInstaller.run_command cmd .timedOut
        = .error ("Command " ++ pyReprList cmd ++ " timed out after "
            ++ Nat.repr commandTimeout ++ " seconds")) ∧
    Nat.repr commandTimeout = "300" ∧
    (∀ (env : String → Except String String) (t : InstallationTask) (c : Nat) (m : String),
      batchHasInstaller (get_file_type t.file_path) = true →
      env t.file_path = .error m →
      (taskResult env t c).status = "failed" ∧ (taskResult env t c).message = m) := by
  refine ⟨fun cmd o rest => rfl, fun cmd rc out err => rfl, ?_, fun cmd => rfl,
    fun cmd => rfl, by decide, ?_⟩
  · intro cmd o
    cases o with
    | finished rc out err =>
      constructor
      · intro ⟨e, he⟩
        by_cases h : rc = 0
        · simp [run_command, h] at he
        · exact Or.inr ⟨rc, out, err, rfl, h⟩
      · rintro (h | ⟨rc', out', err', heq, hne⟩)
        · exact absurd h (by simp)
        · cases heq
          exact ⟨pyOrStr (strTrim err) (strTrim out), by simp [run_command, hne]⟩
    | timedOut =>
      constructor
      · intro _; exact Or.inl rfl
      · intro _; exact ⟨_, rfl⟩
  · intro env t c m h1 h2
    constructor <;> simp [taskResult, h1, h2]

/-- C5 witness: the theorem applied to a concrete command, a concrete
non-zero exit with empty stderr, and a concrete timed-out batch task. -/
theorem C5_run_command_contract_witness :
    run_command_trace ["pkexec", "dpkg"] [.timedOut, .finished 0 "" ""]
      = (run_command ["pkexec", "dpkg"] .timedOut, [.finished 0 "" ""]) ∧
    run_command ["pkexec", "dpkg"] (.finished 1 "out msg\n" "")
      = .error (pyOrStr (strTrim "") (strTrim "out msg\n")) ∧
    ((∃ e, run_command ["tar"] .timedOut = .error e) ↔
      (CmdOutcome.timedOut = .timedOut ∨
        ∃ rc out err, CmdOutcome.timedOut = .finished rc out err ∧ rc ≠ 0)) ∧
    BatchInstaller.run_command ["tar"] .timedOut
      = .error ("Command " ++ pyReprList ["tar"] ++ " timed out after "
          ++ Nat.repr commandTimeout ++ " seconds") ∧
    (taskResult (fun _ => .error "Command timed out: tar") (sampleTask "/tmp/a.deb") 0).message
      = "Command timed out: tar" := by
  obtain ⟨h1, h2, h3, -, h5, -, h7⟩ := C5_run_command_contract
  refine ⟨h1 ["pkexec", "dpkg"] .timedOut [.finished 0 "" ""], ?_,
    h3 ["tar"] .timedOut, h5 ["tar"], ?_⟩
  · rw [h2 ["pkexec", "dpkg"] 1 "out msg\n" ""]; norm_num
  · exact (h7 (fun _ => .error "Command timed out: tar") (sampleTask "/tmp/a.deb") 0
      "Command timed out: tar" (by decide) rfl).2

/-! ## C10 — interactive validation -/

/-- C10: an interactive install request for a missing, unreadable or
empty file (while idle) is rejected with a user-visible error dialog —
the first failing validation check's message, produced before format
detection runs — and nothing else happens: the state (in particular the
`installing` flag) is unchanged, no worker is started, and the only
emitted effect is the error dialog. -/
theorem C10_invalid_file_rejected (s : AppState) (path : String) (fi : FileInfo)
    (hinst : s.installing = false) (hw : s.workerRunning = false)
    (hbad : fi.pathExists = false ∨ fi.readable = false ∨ fi.size = 0) :
    install_file s path fi = (s, [.errorDialog (validationMsg path fi)]) ∧
    (install_file s path fi).1.installing = false ∧
    ∀ e ∈ (install_file s path fi).2, ∃ m, e = .errorDialog m := by
  have hmain : install_file s path fi = (s, [.errorDialog (validationMsg path fi)]) := by
    rcases hbad with h | h | h
    · simp [install_file, validationMsg, hinst, hw, h]
    · cases hp : fi.pathExists <;>
        simp [install_file, validationMsg, hinst, hw, h, hp]
    · cases hp : fi.pathExists <;> cases hr : fi.readable <;>
        simp [install_file, validationMsg, hinst, hw, h, hp, hr]
  refine ⟨hmain, ?_, ?_⟩
  · rw [hmain]; exact hinst
  · rw [hmain]; intro e he
    simp at he
    exact ⟨validationMsg path fi, he⟩

/-- C10 witness: the theorem applied to the concrete idle state and a
concrete unreadable file. -/
theorem C10_invalid_file_rejected_witness :
    install_file s0 "/tmp/locked.deb" ⟨true, false, 5⟩
      = (s0, [.errorDialog (validationMsg "/tmp/locked.deb" ⟨true, false, 5⟩)]) ∧
    (install_file s0 "/tmp/locked.deb" ⟨true, false, 5⟩).1.installing = false :=
  ⟨(C10_invalid_file_rejected s0 "/tmp/locked.deb" ⟨true, false, 5⟩ rfl rfl
      (Or.inr (Or.inl rfl))).1,
   (C10_invalid_file_rejected s0 "/tmp/locked.deb" ⟨true, false, 5⟩ rfl rfl
      (Or.inr (Or.inl rfl))).2.1⟩

/-! ## C2 — appimage destination collision resolution -/

/-- C2 counterexample: the collision loop restarts at counter 1 on every
install, so a freed slot IS reused.  Scenario at a concrete input:
with `app.AppImage` and `app_1.AppImage` on disk, an install of
`app.AppImage` chooses `app_2.AppImage` (counter 2); if `app_1.AppImage`
is then deleted, the next install of a file with the same name chooses
`app_1.AppImage` (counter 1 < 2) — the counters are not strictly
increasing and the freed slot is reused out of order, contradicting the
claim. -/
theorem C2_freed_slot_reused :
    appimageDest ["/home/user/Applications/app.AppImage",
                  "/home/user/Applications/app_1.AppImage"] 9 "/tmp/app.AppImage"
      = "/home/user/Applications/app_2.AppImage" ∧
    appimageDest ["/home/user/Applications/app.AppImage",
                  "/home/user/Applications/app_2.AppImage"] 9 "/tmp/app.AppImage"
      = "/home/user/Applications/app_1.AppImage" ∧
    (1 : Nat) < 2 := by
  refine ⟨by decide, by decide, by decide⟩

/-- C2 amended: the chosen destination never names an existing file (so
no existing file is overwritten), and on a name collision the procedure
picks the *smallest* free counter ≥ 1 — so successive installs of a
file with the same name with no intervening deletion yield strictly
increasing counters, but a freed (deleted) slot is reused at the next
install rather than being skipped.  The free-slot hypotheses discharge
the fuel bound on the modelled `while` loop (the real directory is
finite). -/
theorem C2_appimage_dest (fs : List String) (fuel : Nat) (p : String)
    (base ext : String)
    (hbe : splitext (pathJoin app_dir (basename p)) = (base, ext)) :
    (pathJoin app_dir (basename p) ∉ fs →
      appimageDest fs fuel p = pathJoin app_dir (basename p) ∧
      appimageDest fs fuel p ∉ fs) ∧
    (pathJoin app_dir (basename p) ∈ fs →
      (∃ k, k < fuel ∧ slotName base ext (1 + k) ∉ fs) →
      appimageDest fs fuel p = slotName base ext (findFree fs base ext 1 fuel) ∧
      appimageDest fs fuel p ∉ fs ∧
      1 ≤ findFree fs base ext 1 fuel ∧
      (∀ j, 1 ≤ j → j < findFree fs base ext 1 fuel → slotName base ext j ∈ fs)) ∧
    (pathJoin app_dir (basename p) ∈ fs →
      (∃ k, k < fuel ∧ slotName base ext (1 + k) ∉ fs) →
      (∃ k, k < fuel ∧ slotName base ext (1 + k) ∉ (appimageDest fs fuel p :: fs)) →
      findFree fs base ext 1 fuel
        < findFree (appimageDest fs fuel p :: fs) base ext 1 fuel) := by
  have hdest : ∀ hmem : pathJoin app_dir (basename p) ∈ fs,
      appimageDest fs fuel p = slotName base ext (findFree fs base ext 1 fuel) := by
    intro hmem
    unfold appimageDest
    rw [if_pos hmem, hbe]
  refine ⟨?_, ?_, ?_⟩
  · intro hmem
    have : appimageDest fs fuel p = pathJoin app_dir (basename p) := by
      unfold appimageDest
      rw [if_neg hmem]
    exact ⟨this, this ▸ hmem⟩
  · intro hmem hfree
    obtain ⟨hf1, hf2, hf3⟩ := findFree_spec fs base ext fuel 1 hfree
    exact ⟨hdest hmem, (hdest hmem) ▸ hf1, hf2, hf3⟩
  · intro hmem hfree hfree'
    obtain ⟨hf1, hf2, hf3⟩ := findFree_spec fs base ext fuel 1 hfree
    obtain ⟨hg1, hg2, hg3⟩ :=
      findFree_spec (appimageDest fs fuel p :: fs) base ext fuel 1 hfree'
    set c1 := findFree fs base ext 1 fuel with hc1
    set c2 := findFree (appimageDest fs fuel p :: fs) base ext 1 fuel with hc2
    by_contra hle
    push_neg at hle
    rcases Nat.lt_or_ge c2 c1 with hlt | hge
    · have : slotName base ext c2 ∈ fs := hf3 c2 hg2 hlt
      exact hg1 (List.mem_cons_of_mem _ this)
    · have hc2eq : c2 = c1 := Nat.le_antisymm hle hge
      apply hg1
      rw [hc2eq, ← hdest hmem]
      exact List.mem_cons_self _ _

/-- C2 witness: the amended theorem applied at a concrete filesystem
holding only `app.AppImage`: the chosen destination `app_1.AppImage` is
new, and after that install the next collision picks a strictly larger
counter. -/
theorem C2_appimage_dest_witness :
    appimageDest ["/home/user/Applications/app.AppImage"] 3 "/tmp/app.AppImage"
      ∉ ["/home/user/Applications/app.AppImage"] ∧
    findFree ["/home/user/Applications/app.AppImage"]
        "/home/user/Applications/app" ".AppImage" 1 3
      < findFree (appimageDest ["/home/user/Applications/app.AppImage"] 3 "/tmp/app.AppImage"
            :: ["/home/user/Applications/app.AppImage"])
        "/home/user/Applications/app" ".AppImage" 1 3 := by
  obtain ⟨-, hb, hc⟩ := C2_appimage_dest ["/home/user/Applications/app.AppImage"] 3
    "/tmp/app.AppImage" "/home/user/Applications/app" ".AppImage" (by decide)
  refine ⟨(hb (by decide) ⟨0, by decide, by decide⟩).2.1, ?_⟩
  exact hc (by decide) ⟨0, by decide, by decide⟩ ⟨1, by decide, by decide⟩

/-! ## C7 — History Ledger -/

lemma parseAll_map_to_dict (l : List InstallationTask)
    (h : ∀ t ∈ l, t.task_id ≠ "") :
    parseAll (l.map (·.to_dict)) = some l := by
  induction l with
  | nil => rfl
  | cons t ts ih =>
    have ht := from_dict_to_dict t (h t (List.mem_cons_self t ts))
    have hts := ih (fun u hu => h u (List.mem_cons_of_mem t hu))
    simp [parseAll, ht, hts]

lemma lastN_of_le (n : Nat) (l : List InstallationTask) (h : l.length ≤ n) :
    lastN n l = l := by
  simp [lastN, Nat.sub_eq_zero_of_le h]

/-- C7: `load_history` installs the empty history on a missing or
unparsable store (it is a total function — the `except` swallows every
exception, conjuncts 1-2); `save_history_entry` always appends to the
in-memory history and leaves the store untouched when the write fails
(conjuncts 3, loss of durability only); on a successful write the store
holds exactly the most recent 1000 entries (conjunct 4); and append
followed by load reproduces every field of every retained entry — the
most recent 1000, older entries dropped oldest-first (conjunct 5; the
non-empty-id hypothesis reflects that every task the program creates has
an 8-hex-char id, an empty id being falsy in Python). -/
theorem C7_history_ledger :
    (∀ s : AppState, s.store = .missing → (load_history s).installation_history = []) ∧
    (∀ s : AppState, s.store = .corrupt → (load_history s).installation_history = []) ∧
    (∀ (s : AppState) (task : InstallationTask),
      (save_history_entry s task false).installation_history
        = s.installation_history ++ [task] ∧
      (save_history_entry s task false).store = s.store) ∧
    (∀ (s : AppState) (task : InstallationTask),
      (save_history_entry s task true).store
        = .data ((lastN 1000 (s.installation_history ++ [task])).map (·.to_dict))) ∧
    (∀ (s : AppState) (task : InstallationTask),
      (∀ t ∈ s.installation_history ++ [task], t.task_id ≠ "") →
      (load_history (save_history_entry s task true)).installation_history
        = lastN 1000 (s.installation_history ++ [task])) := by
  refine ⟨?_, ?_, ?_, ?_, ?_⟩
  · intro s h; simp [load_history, h]
  · intro s h; simp [load_history, h]
  · intro s task; exact ⟨rfl, rfl⟩
  · intro s task; rfl
  · intro s task h
    have hsub : ∀ t ∈ lastN 1000 (s.installation_history ++ [task]), t.task_id ≠ "" :=
      fun t ht => h t (List.drop_subset _ _ ht)
    simp [load_history, save_history_entry,
      parseAll_map_to_dict (lastN 1000 (s.installation_history ++ [task])) hsub]

/-- C7 witness: the theorem applied to the concrete idle state (missing
store) and a concrete appended task: load on the missing store is empty,
and append-then-load yields exactly the appended entry. -/
theorem C7_history_ledger_witness :
    (load_history s0).installation_history = [] ∧
    (load_history (save_history_entry s0 (sampleTask "/tmp/app.deb") true)).installation_history
      = lastN 1000 (s0.installation_history ++ [sampleTask "/tmp/app.deb"]) := by
  obtain ⟨h1, -, -, -, h5⟩ := C7_history_ledger
  exact ⟨h1 s0 rfl, h5 s0 (sampleTask "/tmp/app.deb") (by decide)⟩

/-! ## C9 — task serialization -/

/-- C9 counterexample: for a concrete task whose timestamps are `None`,
`to_dict` (line 254) emits the key `start_time` with an explicit `null`
value — the field is *present* on the wire, not absent as the claim
states (the claim is right that it is not a placeholder string). -/
theorem C9_null_timestamp_is_present_field :
    (sampleTask "/tmp/app.deb").to_dict.lookup "start_time" = some JValue.null ∧
    (sampleTask "/tmp/app.deb").to_dict.lookup "start_time" ≠ none := by
  refine ⟨by decide, by decide⟩

/-- C9 amended: deserializing the serialized form of a task reproduces
all of its fields — path, id, status, progress, message, hash, size and
the optional timestamps — provided the id is non-empty (as every task
the program creates is); and a `None` timestamp is represented on the
wire as an explicit `null` value under a present key: not a placeholder
string, but not an absent field either. -/
theorem C9_serialization_roundtrip :
    (∀ t : InstallationTask, t.task_id ≠ "" →
      InstallationTask.from_dict t.to_dict = some t) ∧
    (∀ t : InstallationTask, t.start_time = none →
      t.to_dict.lookup "start_time" = some JValue.null ∧
      ∀ s, t.to_dict.lookup "start_time" ≠ some (.str s)) ∧
    (∀ t : InstallationTask, t.end_time = none →
      t.to_dict.lookup "end_time" = some JValue.null) := by
  refine ⟨fun t h => from_dict_to_dict t h, ?_, ?_⟩
  · intro t h
    rw [lookup_to_dict_start_time, h]
    exact ⟨rfl, fun s hs => by simp at hs⟩
  · intro t h
    rw [lookup_to_dict_end_time, h]

/-- C9 witness: the amended theorem applied to a concrete task. -/
theorem C9_serialization_roundtrip_witness :
    InstallationTask.from_dict (sampleTask "/tmp/app.deb").to_dict
      = some (sampleTask "/tmp/app.deb") ∧
    (sampleTask "/tmp/app.deb").to_dict.lookup "end_time" = some JValue.null := by
  obtain ⟨h1, -, h3⟩ := C9_serialization_roundtrip
  exact ⟨h1 (sampleTask "/tmp/app.deb") (by decide), h3 (sampleTask "/tmp/app.deb") rfl⟩

/-! ## C6 — batch scheduler error isolation -/

lemma getD_set_ne (l : List InstallationTask) (i j : Nat) (t : InstallationTask)
    (h : i ≠ j) : (l.set i t).getD j noTask = l.getD j noTask := by
  simp [List.getD_eq_getElem?_getD, List.getElem?_set_ne h]

lemma getD_set_self (l : List InstallationTask) (i : Nat) (t : InstallationTask)
    (h : i < l.length) : (l.set i t).getD i noTask = t := by
  simp [List.getD_eq_getElem?_getD, List.getElem?_set_self h]

lemma run_heap_length (env : String → Except String String) :
    ∀ (refs : List Nat) (heap : List InstallationTask) (clock : Nat),
      (BatchInstaller.run env refs heap clock).1.length = heap.length := by
  intro refs
  induction refs with
  | nil => intro heap clock; rfl
  | cons r rs ih =>
    intro heap clock
    simp [BatchInstaller.run, batchStep, ih]

lemma run_heap_untouched (env : String → Except String String) :
    ∀ (refs : List Nat) (heap : List InstallationTask) (clock : Nat) (r : Nat),
      r ∉ refs →
      (BatchInstaller.run env refs heap clock).1.getD r noTask = heap.getD r noTask := by
  intro refs
  induction refs with
  | nil => intro heap clock r _; rfl
  | cons r' rs ih =>
    intro heap clock r hr
    have hne : r' ≠ r := fun h => hr (h ▸ List.mem_cons_self r' rs)
    have hrs : r ∉ rs := fun h => hr (List.mem_cons_of_mem r' h)
    show (BatchInstaller.run env rs
      (heap.set r' (taskResult env (heap.getD r' noTask) clock)) (clock + 2)).1.getD r noTask
      = heap.getD r noTask
    rw [ih _ _ r hrs, getD_set_ne _ _ _ _ hne]

lemma taskResult_terminal (env : String → Except String String)
    (t : InstallationTask) (c : Nat) :
    ((taskResult env t c).status = "completed" ∨ (taskResult env t c).status = "failed") ∧
    (taskResult env t c).end_time = some (c + 1) := by
  unfold taskResult
  by_cases h : batchHasInstaller (get_file_type t.file_path)
  · cases he : env t.file_path <;> simp [h, he]
  · simp [h]

lemma batch_finished_not_mem_taskEvents (env : String → Except String String)
    (t : InstallationTask) : BEvent.batch_finished ∉ taskEvents env t := by
  unfold taskEvents
  by_cases h : batchHasInstaller (get_file_type t.file_path)
  · cases he : env t.file_path <;> simp [h, he]
  · simp [h]

lemma run_events (env : String → Except String String) :
    ∀ (refs : List Nat) (heap : List InstallationTask) (clock : Nat),
      refs.Nodup →
      (BatchInstaller.run env refs heap clock).2.2
        = (refs.map (fun r => taskEvents env (heap.getD r noTask))).flatten
            ++ [.batch_finished] := by
  intro refs
  induction refs with
  | nil => intro heap clock _; rfl
  | cons r rs ih =>
    intro heap clock hnd
    rw [List.nodup_cons] at hnd
    show taskEvents env (heap.getD r noTask)
        ++ (BatchInstaller.run env rs
              (heap.set r (taskResult env (heap.getD r noTask) clock)) (clock + 2)).2.2
      = _
    rw [ih _ _ hnd.2]
    have hmap : rs.map (fun r' =>
        taskEvents env ((heap.set r (taskResult env (heap.getD r noTask) clock)).getD r' noTask))
        = rs.map (fun r' => taskEvents env (heap.getD r' noTask)) := by
      apply List.map_congr_left
      intro r' hr'
      have : r ≠ r' := fun h => hnd.1 (h ▸ hr')
      rw [getD_set_ne _ _ _ _ this]
    rw [hmap]
    simp [List.flatten]

lemma run_outcome_at (env : String → Except String String) :
    ∀ (refs : List Nat) (heap : List InstallationTask) (clock : Nat),
      refs.Nodup → (∀ r ∈ refs, r < heap.length) →
      ∀ i, i < refs.length →
        (BatchInstaller.run env refs heap clock).1.getD (refs.getD i 0) noTask
          = taskResult env (heap.getD (refs.getD i 0) noTask) (clock + 2 * i) := by
  intro refs
  induction refs with
  | nil => intro heap clock _ _ i hi; exact absurd hi (by simp)
  | cons r rs ih =>
    intro heap clock hnd hvalid i hi
    rw [List.nodup_cons] at hnd
    cases i with
    | zero =>
      show (BatchInstaller.run env rs
          (heap.set r (taskResult env (heap.getD r noTask) clock)) (clock + 2)).1.getD r noTask
        = taskResult env (heap.getD r noTask) (clock + 2 * 0)
      rw [run_heap_untouched env rs _ _ r hnd.1,
        getD_set_self _ _ _ (hvalid r (List.mem_cons_self r rs))]
      norm_num
    | succ j =>
      have hj : j < rs.length := by simpa using hi
      have hrj : rs.getD j 0 ∈ rs := by
        rw [List.getD_eq_getElem?_getD, List.getElem?_eq_getElem hj]
        exact List.getElem_mem hj
      have hne : r ≠ rs.getD j 0 := fun h => hnd.1 (h ▸ hrj)
      have hvalid' : ∀ r' ∈ rs,
          r' < (heap.set r (taskResult env (heap.getD r noTask) clock)).length := by
        intro r' hr'
        rw [List.length_set]
        exact hvalid r' (List.mem_cons_of_mem r hr')
      show (BatchInstaller.run env rs
          (heap.set r (taskResult env (heap.getD r noTask) clock)) (clock + 2)).1.getD
            (rs.getD j 0) noTask
        = taskResult env (heap.getD (rs.getD j 0) noTask) (clock + 2 * (j + 1))
      rw [ih _ _ hnd.2 hvalid' j hj, getD_set_ne _ _ _ _ hne]
      have harith : clock + 2 + 2 * j = clock + 2 * (j + 1) := by ring
      rw [harith]

/-- C6: for a batch over distinct valid task references, (1) the event
stream is exactly the per-task event blocks in FIFO queue order followed
by `batch_finished`; (2) each task's terminal value is a function of its
own pre-state, the oracle's answer for its own path, and its queue
position only — so one task's failure cannot change any other task's
processing or outcome; (3) every task reaches a terminal status with its
end time recorded; (4) `batch_finished` is emitted exactly once, after
the private queue drains (nothing in src/ ever clears `self.running`, so
the loop always drains); (5) explicitly, replacing the oracle by any
other oracle that agrees on task `i`'s path leaves task `i`'s outcome
unchanged. -/
theorem C6_batch_failure_isolation (env : String → Except String String)
    (refs : List Nat) (heap : List InstallationTask) (clock : Nat)
    (hnd : refs.Nodup) (hvalid : ∀ r ∈ refs, r < heap.length) :
    (BatchInstaller.run env refs heap clock).2.2
      = (refs.map (fun r => taskEvents env (heap.getD r noTask))).flatten
          ++ [.batch_finished] ∧
    (∀ i, i < refs.length →
      (BatchInstaller.run env refs heap clock).1.getD (refs.getD i 0) noTask
        = taskResult env (heap.getD (refs.getD i 0) noTask) (clock + 2 * i)) ∧
    (∀ i, i < refs.length →
      (((BatchInstaller.run env refs heap clock).1.getD (refs.getD i 0) noTask).status
          = "completed" ∨
       ((BatchInstaller.run env refs heap clock).1.getD (refs.getD i 0) noTask).status
          = "failed") ∧
      ((BatchInstaller.run env refs heap clock).1.getD (refs.getD i 0) noTask).end_time
        ≠ none) ∧
    (BatchInstaller.run env refs heap clock).2.2.count .batch_finished = 1 ∧
    (∀ (env₂ : String → Except String String) (i : Nat), i < refs.length →
      env (heap.getD (refs.getD i 0) noTask).file_path
        = env₂ (heap.getD (refs.getD i 0) noTask).file_path →
      taskResult env (heap.getD (refs.getD i 0) noTask) (clock + 2 * i)
        = taskResult env₂ (heap.getD (refs.getD i 0) noTask) (clock + 2 * i)) := by
  have hev := run_events env refs heap clock hnd
  have hout := run_outcome_at env refs heap clock hnd hvalid
  refine ⟨hev, hout, ?_, ?_, ?_⟩
  · intro i hi
    rw [hout i hi]
    obtain ⟨hs, he⟩ := taskResult_terminal env (heap.getD (refs.getD i 0) noTask)
      (clock + 2 * i)
    exact ⟨hs, by rw [he]; exact Option.some_ne_none _⟩
  · rw [hev, List.count_append]
    have hzero : (refs.map (fun r => taskEvents env (heap.getD r noTask))).flatten.count
        BEvent.batch_finished = 0 := by
      rw [List.count_eq_zero]
      intro hmem
      rcases List.mem_flatten.1 hmem with ⟨l, hl, hx⟩
      rcases List.mem_map.1 hl with ⟨r, -, rfl⟩
      exact batch_finished_not_mem_taskEvents env _ hx
    rw [hzero]
    rfl
  · intro env₂ i _ h
    simp only [taskResult, h]

/-- The install oracle engineered so that the middle task of the concrete
batch fails. -/
def envW : String → Except String String :=
  fun p => if p = "/tmp/b.deb" then .error "boom" else .ok "done"

/-- A concrete three-task heap for the batch witness. -/
def heapW : List InstallationTask :=
  [sampleTask "/tmp/a.deb", sampleTask "/tmp/b.deb", sampleTask "/tmp/c.deb"]

/-- C6 witness: the theorem applied to a concrete three-task batch whose
middle task is engineered to fail: `batch_finished` fires exactly once,
every task ends terminal with an end time, the failing task ends
`failed`, and its neighbours end `completed`. -/
theorem C6_batch_failure_isolation_witness :
    (BatchInstaller.run envW [0, 1, 2] heapW 0).2.2.count .batch_finished = 1 ∧
    (∀ i, i < ([0, 1, 2] : List Nat).length →
      (((BatchInstaller.run envW [0, 1, 2] heapW 0).1.getD (([0, 1, 2] : List Nat).getD i 0)
          noTask).status = "completed" ∨
       ((BatchInstaller.run envW [0, 1, 2] heapW 0).1.getD (([0, 1, 2] : List Nat).getD i 0)
          noTask).status = "failed") ∧
      ((BatchInstaller.run envW [0, 1, 2] heapW 0).1.getD (([0, 1, 2] : List Nat).getD i 0)
          noTask).end_time ≠ none) ∧
    ((BatchInstaller.run envW [0, 1, 2] heapW 0).1.getD 1 noTask).status = "failed" ∧
    ((BatchInstaller.run envW [0, 1, 2] heapW 0).1.getD 0 noTask).status = "completed" ∧
    ((BatchInstaller.run envW [0, 1, 2] heapW 0).1.getD 2 noTask).status = "completed" := by
  obtain ⟨-, -, h3, h4, -⟩ := C6_batch_failure_isolation envW [0, 1, 2] heapW 0
    (by decide) (by decide)
  exact ⟨h4, h3, by decide, by decide, by decide⟩

/-! ## C8 — best-effort desktop integration -/

/-- Recognizer for step-attempt markers. -/
def isAttempted : IntEvent → Bool
  | .attempted _ => true
  | _ => false

lemma lookup_assoc_appimage : file_associations.lookup "appimage" = some [".appimage"] := rfl

/-- C8: whatever integration effects fail, (1) the three
`post_install_setup` steps — application directories, uninstall entry,
file associations — are all attempted, in order; (2) the menu/shortcut
entry step and the icon-extraction step are both attempted, and (3) icon
failure degrades to the generic icon instead of blocking entry creation;
(4) an appimage install whose move succeeded reports success regardless
of any integration failure — integration can never turn a successful
installation into a failed one; (5) the post-install report is either the
full completion message (with `N/A` placeholders when the directories
step failed) or the degraded notice — integration failures at most
degrade the message. -/
theorem C8_integration_never_fatal :
    (∀ (env : IntegrationEnv) (app_name install_path : String),
      ((post_install_setup env app_name install_path "appimage").2.filter isAttempted)
        = [.attempted .appDirs, .attempted .uninstallEntry, .attempted .fileAssoc]) ∧
    (∀ (env : IntegrationEnv) (p : String),
      (IntEvent.attempted .desktopEntry) ∈ create_appimage_desktop_entry env p ∧
      (IntEvent.attempted .iconExtract) ∈ create_appimage_desktop_entry env p) ∧
    (∀ (env : IntegrationEnv) (p : String), env.iconOk = false → env.entryFail = false →
      IntEvent.wroteEntry
          (home ++ "/.local/share/applications/" ++ (splitext (basename p)).1 ++ ".desktop")
          "application-x-executable"
        ∈ create_appimage_desktop_entry env p) ∧
    (∀ (fs : List String) (fuel : Nat) (env : IntegrationEnv) (p : String),
      install_appimage fs fuel env (.ok ()) p
        = .ok ("AppImage installed to " ++ appimageDest fs fuel p ++ " with desktop integration",
            create_appimage_desktop_entry env (appimageDest fs fuel p)
              ++ (post_install_setup env ((splitext (basename (appimageDest fs fuel p))).1)
                    (appimageDest fs fuel p) "appimage").2)) ∧
    (∀ (env : IntegrationEnv) (app_name install_path ft : String),
      (post_install_setup env app_name install_path ft).1
        = post_completion_msg app_name install_path
            (setup_application_directories env app_name).1 ∨
      (post_install_setup env app_name install_path ft).1 = post_degraded_msg app_name) := by
  refine ⟨?_, ?_, ?_, ?_, ?_⟩
  · intro env app_name install_path
    cases hd : env.dirsFail <;> cases hu : env.uninstallFail <;> cases ha : env.assocFail <;>
      simp [post_install_setup, setup_application_directories, create_uninstall_entry,
        setup_file_associations, lookup_assoc_appimage, hd, hu, ha, isAttempted,
        List.filter]
  · intro env p
    cases hi : env.iconOk <;> cases he : env.entryFail <;>
      simp [create_appimage_desktop_entry, extract_appimage_icon, hi, he]
  · intro env p hi he
    simp [create_appimage_desktop_entry, extract_appimage_icon, hi, he]
  · intro fs fuel env p
    rfl
  · intro env app_name install_path ft
    cases hp : env.postUnexpectedFail
    · left; simp [post_install_setup, hp]
    · right; simp [post_install_setup, hp]

/-- An integration environment in which every step fails. -/
def envAllFail : IntegrationEnv :=
  { iconOk := false, entryFail := true, dirsFail := true,
    uninstallFail := true, assocFail := true, postUnexpectedFail := false }

/-- C8 witness: the theorem applied with every integration effect
failing: all steps are still attempted, the install still succeeds, and
the report is still produced. -/
theorem C8_integration_never_fatal_witness :
    ((post_install_setup envAllFail "app" "/home/user/Applications/app.AppImage"
        "appimage").2.filter isAttempted)
      = [.attempted .appDirs, .attempted .uninstallEntry, .attempted .fileAssoc] ∧
    (IntEvent.attempted .iconExtract)
      ∈ create_appimage_desktop_entry envAllFail "/home/user/Applications/app.AppImage" ∧
    install_appimage [] 3 envAllFail (.ok ()) "/tmp/app.AppImage"
      = .ok ("AppImage installed to " ++ appimageDest [] 3 "/tmp/app.AppImage"
            ++ " with desktop integration",
          create_appimage_desktop_entry envAllFail (appimageDest [] 3 "/tmp/app.AppImage")
            ++ (post_install_setup envAllFail
                  ((splitext (basename (appimageDest [] 3 "/tmp/app.AppImage"))).1)
                  (appimageDest [] 3 "/tmp/app.AppImage") "appimage").2) := by
  obtain ⟨h1, h2, -, h4, -⟩ := C8_integration_never_fatal
  exact ⟨h1 envAllFail "app" "/home/user/Applications/app.AppImage",
    (h2 envAllFail "/home/user/Applications/app.AppImage").2,
    h4 [] 3 envAllFail "/tmp/app.AppImage"⟩

/-! ## C1 — ledger append on terminal outcomes -/

/-- C1 counterexample: an interactive installation that reaches its
terminal outcome is *not* appended to the History Ledger.  At the
concrete idle state with an empty ledger, the interactive completion
handler (`on_install_finished`, lines 1614-1624) restores the UI and
shows the success dialog but leaves both the in-memory history and the
persisted store empty: the outcome was appended zero times, not exactly
once (`on_install_error` behaves the same way). -/
theorem C1_interactive_outcome_never_recorded :
    (on_install_finished s0 "Successfully installed app.deb").1.installation_history = [] ∧
    (on_install_finished s0 "Successfully installed app.deb").1.store = StoreState.missing ∧
    (on_install_error s0 "dpkg failed").1.installation_history = [] := by
  exact ⟨rfl, rfl, rfl⟩

set_option maxRecDepth 8000 in
/-- C1 amended: interactive terminal outcomes are never appended to the
History Ledger — both interactive handlers leave the in-memory history
and the store untouched (conjuncts 1-2); a batch outcome whose task id is
no longer found in the user-visible queue is dropped without an append
(conjunct 3); and a batch outcome whose task is found is appended exactly
once — the resulting ledger is the old one plus exactly the updated task
(conjunct 4, under a successful persist, the 1000-entry cap not being
hit, and the program-maintained invariant that task ids are non-empty;
the handler's trailing `load_history()` re-reads the ledger from the
store it just wrote). -/
theorem C1_ledger_append_exactly_once_per_batch_outcome :
    (∀ (s : AppState) (m : String),
      (on_install_finished s m).1.installation_history = s.installation_history ∧
      (on_install_finished s m).1.store = s.store) ∧
    (∀ (s : AppState) (m : String),
      (on_install_error s m).1.installation_history = s.installation_history ∧
      (on_install_error s m).1.store = s.store) ∧
    (∀ (s : AppState) (task_id m : String) (success persistOk : Bool),
      findTask s task_id = none →
      on_batch_task_completed s task_id success m persistOk = s) ∧
    (∀ (s : AppState) (task_id m : String) (success : Bool) (r : Nat),
      findTask s task_id = some r →
      task_id ≠ "" →
      (∀ t ∈ s.installation_history, t.task_id ≠ "") →
      s.installation_history.length + 1 ≤ 1000 →
      (on_batch_task_completed s task_id success m true).installation_history
        = s.installation_history
            ++ [{ s.heap.getD r noTask with
                  status := if success then "completed" else "failed",
                  message := m }]) := by
  refine ⟨fun s m => ⟨rfl, rfl⟩, fun s m => ⟨rfl, rfl⟩, ?_, ?_⟩
  · intro s task_id m success persistOk hf
    simp [on_batch_task_completed, hf]
  · intro s task_id m success r hf hid hhist hlen
    have hida : (s.heap.getD r noTask).task_id = task_id := by
      have := List.find?_some hf
      exact eq_of_beq this
    set t1 : InstallationTask :=
      { s.heap.getD r noTask with
        status := if success then "completed" else "failed", message := m } with ht1
    have ht1eq : t1.task_id = task_id := hida
    have ht1id : t1.task_id ≠ "" := by rw [ht1eq]; exact hid
    have hall : ∀ t ∈ s.installation_history ++ [t1], t.task_id ≠ "" := by
      intro t ht
      rcases List.mem_append.1 ht with h | h
      · exact hhist t h
      · rw [List.mem_singleton.1 h]; exact ht1id
    have hcap : (s.installation_history ++ [t1]).length ≤ 1000 := by
      simpa using hlen
    simp only [on_batch_task_completed, hf]
    show (load_history (save_history_entry
        { s with heap := s.heap.set r t1 } t1 true)).installation_history
      = s.installation_history ++ [t1]
    have hunfold : (load_history (save_history_entry
        { s with heap := s.heap.set r t1 } t1 true)).installation_history
        = (parseAll ((lastN 1000 (s.installation_history ++ [t1])).map (·.to_dict))).getD [] :=
      rfl
    rw [hunfold, lastN_of_le _ _ hcap, parseAll_map_to_dict _ hall]
    rfl

/-- C1 witness: the amended theorem applied to the concrete one-task
queue state: a batch task-completed event for the queued task appends
exactly its updated task; an interactive finish appends nothing. -/
theorem C1_ledger_append_witness :
    (on_batch_task_completed s0 "abc12345" true "done" true).installation_history
      = s0.installation_history
          ++ [{ s0.heap.getD 0 noTask with status := "completed", message := "done" }] ∧
    (on_install_finished s0 "done").1.installation_history = s0.installation_history := by
  obtain ⟨h1, -, -, h4⟩ := C1_ledger_append_exactly_once_per_batch_outcome
  constructor
  · have := h4 s0 "abc12345" "done" true 0 (by decide) (by decide)
      (by intro t ht; simp [s0] at ht) (by decide)
    simpa using this
  · exact (h1 s0 "done").1

/-! ## C3 — queue invariant and batch start -/

/-- C3: evaluating the code at the failing input.  With one queued task,
`start_batch_installation` passes the emptiness and already-running
guards, constructs `BatchInstaller(self.installation_queue.copy())` — a
shallow copy holding the *same* task references — assigns it, and then
raises `AttributeError`, because line 974 calls
`self.current_batch_installer.set_installer(self)` and `BatchInstaller`
defines no `set_installer` method: no batch run ever starts (signal
connections and `start()` are unreachable).  The final conjuncts exhibit
the sharing the claim denies: the reference `0` is in the user-visible
queue, and running the batch loop over the copied reference list would
mutate that very task to a terminal status visible through the queue. -/
theorem C3_start_batch_raises_attribute_error :
    (start_batch_installation s0).2 = .raisedAttributeError ∧
    (start_batch_installation s0).1.installation_queue = s0.installation_queue ∧
    (start_batch_installation s0).1.heap = s0.heap ∧
    (start_batch_installation s0).1.batch = some s0.installation_queue ∧
    0 ∈ s0.installation_queue ∧
    ((BatchInstaller.run (fun _ => .ok "done") s0.installation_queue s0.heap 0).1.getD 0
        noTask).status = "completed" := by
  exact ⟨rfl, rfl, rfl, rfl, by decide, by decide⟩
